import Mathlib

set_option maxRecDepth 8000

/-!
# Verification of the Tetris state reducer

Shallow embedding of the game core of the `tetris` repository:
`src/utils.ts` (grid/collision utilities), `src/types.ts` (data model,
constants, tetromino generator), `src/state.ts` (action handlers) and the
`reduceState` reducer from `src/main.ts`.

Conventions of the embedding:
* JavaScript numbers that hold pixel coordinates are embedded as `ℤ`
  (they can be negative, e.g. after a left move); counters, scores, ids
  and shape entries are `ℕ`.
* The string-literal union types `Color` and `Tetromino` are embedded as
  inductive enumerations.
* `grid[r][c].value` on an out-of-range index is undefined behavior in the
  source (the caller contract in `isValidPosition` pre-checks bounds); the
  embedding totalises it as an unoccupied cell, which is never observable
  on the in-contract paths proved below.
* Divisions of pixel coordinates by the block size occur in the source only
  on block-aligned values, where real division and integer division agree;
  the embedding uses integer division.
-/

namespace Tetris

/-- The `Color` string union of `src/types.ts`. -/
inductive Color where
  | blue | cyan | purple | orange | red | yellow | green | black
deriving DecidableEq, Repr

/-- The `Tetromino` kind union of `src/types.ts` (`Bomb` included). -/
inductive TetrominoType where
  | cube | line | tee | lShape | reverseLShape | zShape | reverseZShape | bomb
deriving DecidableEq, Repr

/-- `GridObject`: one cell of the grid. Cells created by
`new Array(10).fill({value: 0})` carry no color, hence `Option Color`. -/
structure GridObject where
  color : Option Color := none
  value : ℕ := 0
deriving DecidableEq, Repr

/-- `Grid`: a 2D array of cells, row 0 at the top. -/
abbrev Grid := List (List GridObject)

/-- A tetromino shape: a 2D array of numbers, `1` = occupied. -/
abbrev TetrominoShape := List (List ℕ)

/-- `TetrominoObject` of `src/types.ts`.  The source declares
`id : number | null` but every piece actually constructed carries a
number, so the embedding uses `ℕ`. -/
structure TetrominoObject where
  id : ℕ
  shape : TetrominoShape
  color : Color
  x : ℤ
  y : ℤ
  type : TetrominoType
deriving DecidableEq, Repr

/-- The game `State` of `src/types.ts`. -/
structure State where
  gameEnd : Bool
  currentTetromino : TetrominoObject
  nextTetromino : TetrominoObject
  grid : Grid
  score : ℕ
  level : ℕ
  highScore : ℕ
  tickRate : ℤ
deriving DecidableEq, Repr

/-- The input-event union dispatched by `reduceState` in `src/main.ts`:
`Move`, `Rotate`, `Drop`, `Space` instances, and the numeric tick. -/
inductive StateChange where
  | move (x y : ℤ)
  | rotate
  | drop
  | space
  | tick
deriving DecidableEq, Repr

/-! ## Constants (`src/types.ts`) -/

def Viewport.CANVAS_WIDTH : ℤ := 200

def Viewport.CANVAS_HEIGHT : ℤ := 400

def Constants.TICK_RATE_MS : ℤ := 500

def Constants.GRID_WIDTH : ℕ := 10

def Constants.GRID_HEIGHT : ℕ := 20

/-- `Block.WIDTH = CANVAS_WIDTH / GRID_WIDTH = 20`. -/
def Block.WIDTH : ℤ := 20

/-- `Block.HEIGHT = CANVAS_HEIGHT / GRID_HEIGHT = 20`. -/
def Block.HEIGHT : ℤ := 20

/-! ## Grid/collision utilities (`src/utils.ts`) -/

/-- `rotateShapeClockwise`:
`Array(shape[0].length).fill(null).map((_, col) => shape.slice().reverse().map(row => row[col]))`.
`shape[0]` on an empty list and `row[col]` past a row's end are undefined
in the source (never reached on rectangular shapes); totalised with
defaults `[]` and `0`. -/
def rotateShapeClockwise (shape : TetrominoShape) : TetrominoShape :=
  (List.range (shape.headD []).length).map fun col =>
    shape.reverse.map fun row => row.getD col 0

/-- `isOffScreen(x, y, width, height)`:
`x < 0 || x + width > CANVAS_WIDTH || y + height > CANVAS_HEIGHT`.
The top (`y < 0`) is intentionally unchecked. -/
def isOffScreen (x y width height : ℤ) : Bool :=
  x < 0 || x + width > Viewport.CANVAS_WIDTH || y + height > Viewport.CANVAS_HEIGHT

/-- `toGridCoordinates(coord, blockSize) = coord / blockSize`; all call
sites pass block-aligned coordinates, where the division is exact. -/
def toGridCoordinates (coord blockSize : ℤ) : ℤ :=
  coord / blockSize

/-- The colorless unoccupied cell `{value: 0}`. -/
def emptyCell : GridObject := { color := none, value := 0 }

/-- Reading `grid[row][col]` with totalised out-of-range access (an
unoccupied cell); in-contract callers never index out of range. -/
def cellAt (grid : Grid) (row col : ℤ) : GridObject :=
  if 0 ≤ row ∧ 0 ≤ col then (grid.getD row.toNat []).getD col.toNat emptyCell else emptyCell

/-- `shapeAndGridCoincide(shape, grid, x, y)`: reduce over the shape's rows,
true once some occupied shape cell maps to an occupied grid cell at
`grid[y + rowIndex][x + cellIndex]`. -/
def shapeAndGridCoincide (shape : TetrominoShape) (grid : Grid) (x y : ℤ) : Bool :=
  shape.enum.foldl
    (fun acc p =>
      acc || p.2.enum.any fun q =>
        q.2 == 1 && (cellAt grid (y + p.1) (x + q.1)).value == 1)
    false

/-- `isValidPosition(x, y, shape, grid)`.  The source returns `false` when
`shape` or `shape[0]` is null/undefined — for a list argument that is
exactly the case `shape = []` (note `shape[0]` *exists* for `shape = [[]]`).
Otherwise: on screen and no coincidence with the grid. -/
def isValidPosition (x y : ℤ) (shape : TetrominoShape) (grid : Grid) : Bool :=
  match shape with
  | [] => false
  | r0 :: _ =>
    !isOffScreen x y (r0.length * Block.WIDTH) (shape.length * Block.HEIGHT) &&
      !shapeAndGridCoincide shape grid (toGridCoordinates x Block.WIDTH)
        (toGridCoordinates y Block.HEIGHT)

/-- `isRowFilled(row) = row.every(cell => cell.value !== 0)`. -/
def isRowFilled (row : List GridObject) : Bool :=
  row.all fun cell => cell.value != 0

/-- `addTetrominoToGrid(grid, x, y, shape, color)`: stamp the shape's
occupied cells (`=== 1`) as `{color, value: 1}`, all other cells kept. -/
def addTetrominoToGrid (grid : Grid) (x y : ℤ) (shape : TetrominoShape)
    (color : Color) : Grid :=
  grid.mapIdx fun rowIndex row =>
    if y ≤ (rowIndex : ℤ) ∧ (rowIndex : ℤ) < y + shape.length then
      let srow := shape.getD ((rowIndex : ℤ) - y).toNat []
      row.mapIdx fun colIndex cell =>
        if x ≤ (colIndex : ℤ) ∧ (colIndex : ℤ) < x + srow.length ∧
            srow.getD ((colIndex : ℤ) - x).toNat 0 = 1 then
          { color := some color, value := 1 }
        else cell
    else row

/-- `findDropPosition(grid, x, y, shape)`: scan `(400 - y) / 20` single
block-height increments below `y`, keeping the last valid `y`, and return
it as a grid row index (`/ Block.HEIGHT`). -/
def findDropPosition (grid : Grid) (x y : ℤ) (shape : TetrominoShape) : ℤ :=
  let increments : List ℤ :=
    List.replicate (((400 : ℤ) - y) / Block.HEIGHT).toNat Block.HEIGHT
  let returnY :=
    increments.foldl
      (fun accY height =>
        let nextY := accY + height
        if isValidPosition x nextY shape grid then nextY else accY)
      y
  returnY / Block.HEIGHT

/-! ## Tetromino generator (`src/types.ts`) -/

def RNG.m : ℕ := 2147483648

def RNG.a : ℕ := 1103515245

def RNG.c : ℕ := 12345

/-- `RNG.hash(seed) = (a * seed + c) % m`. -/
def RNG.hash (seed : ℕ) : ℕ := (RNG.a * seed + RNG.c) % RNG.m

/-- `RNG.modulus(hash) = hash % 8`. -/
def RNG.modulus (hash : ℕ) : ℕ := hash % 8

/-- The `tetrominoShapes` record of `src/types.ts`, keyed by its string
keys.  The record has exactly the nine keys matched here; the catch-all
returns the `"null"` entry (the terminal empty-shape sentinel piece). -/
def tetrominoShapes (key : String) : TetrominoObject :=
  match key with
  | "cube" => { id := 0, y := 0, type := .cube, shape := [[1, 1], [1, 1]],
                color := .blue, x := Block.WIDTH * 4 }
  | "line" => { id := 0, y := 0, type := .line, shape := [[1, 1, 1, 1]],
                color := .cyan, x := Block.WIDTH * 3 }
  | "tee" => { id := 0, y := 0, type := .tee, shape := [[0, 1, 0], [1, 1, 1]],
               color := .purple, x := Block.WIDTH * 4 }
  | "lShape" => { id := 0, y := 0, type := .lShape, shape := [[1, 0], [1, 0], [1, 1]],
                  color := .orange, x := Block.WIDTH * 4 }
  | "reverseLShape" => { id := 0, y := 0, type := .reverseLShape,
                         shape := [[0, 1], [0, 1], [1, 1]],
                         color := .red, x := Block.WIDTH * 4 }
  | "zShape" => { id := 0, y := 0, type := .zShape, shape := [[1, 1, 0], [0, 1, 1]],
                  color := .yellow, x := Block.WIDTH * 4 }
  | "reverseZShape" => { id := 0, y := 0, type := .reverseZShape,
                         shape := [[0, 1, 1], [1, 1, 0]],
                         color := .green, x := Block.WIDTH * 4 }
  | "Bomb" => { id := 0, y := 0, type := .bomb, shape := [[1]],
                color := .black, x := Block.WIDTH * 5 }
  | _ => { id := 0, y := 0, type := .cube, shape := [],
           color := .black, x := Block.WIDTH * 5 }

/-- The `tetrominoMapping` record, keyed `0..7`; every caller passes
`hash % 8 < 8`, so the catch-all (key `7`) is exact on all used keys. -/
def tetrominoMapping (k : ℕ) : String :=
  match k with
  | 0 => "cube"
  | 1 => "line"
  | 2 => "tee"
  | 3 => "lShape"
  | 4 => "reverseLShape"
  | 5 => "zShape"
  | 6 => "reverseZShape"
  | _ => "Bomb"

/-- `getRandomTetrimono(id)` of `src/types.ts`: seed `12345 + id`, LCG
hash, reduce mod 8, look the kind up, tag with `id`. -/
def getRandomTetrimono (id : ℕ) : TetrominoObject :=
  let seed := 12345 + id
  let hashValue := RNG.hash seed
  let numberBetween0And7 := RNG.modulus hashValue
  { tetrominoShapes (tetrominoMapping numberBetween0And7) with id := id }

/-- `new Array(20).fill(0).map(() => new Array(10).fill({value: 0}))` —
the fresh 20×10 grid used by `initialState` and the restart case. -/
def freshGrid : Grid :=
  List.replicate 20 (List.replicate 10 emptyCell)

/-- `initialState` of `src/types.ts`. -/
def initialState : State :=
  { gameEnd := false
    currentTetromino := getRandomTetrimono 1
    nextTetromino := getRandomTetrimono 2
    grid := freshGrid
    score := 0
    level := 1
    highScore := 0
    tickRate := Constants.TICK_RATE_MS }

/-! ## State handlers (`src/state.ts`) -/

/-- `handleGameEnd(s)`: stamp the current piece at its present grid
location, replace both pieces by the `"null"` sentinel carrying the old
current id, set `gameEnd`, raise `highScore` if beaten. -/
def handleGameEnd (s : State) : State :=
  { s with
    grid := addTetrominoToGrid s.grid (s.currentTetromino.x / Block.WIDTH)
      (s.currentTetromino.y / Block.HEIGHT) s.currentTetromino.shape
      s.currentTetromino.color
    currentTetromino := { tetrominoShapes "null" with id := s.currentTetromino.id }
    nextTetromino := { tetrominoShapes "null" with id := s.currentTetromino.id }
    gameEnd := true
    highScore := if s.score > s.highScore then s.score else s.highScore }

/-- `addBombToGrid(grid, x, y, color)`: every cell within Chebyshev
distance 1 of `(x, y)` becomes `{color, value: 0}`; others kept. -/
def addBombToGrid (grid : Grid) (x y : ℤ) (color : Color) : Grid :=
  grid.mapIdx fun rowIndex row =>
    row.mapIdx fun colIndex cell =>
      if |(rowIndex : ℤ) - y| ≤ 1 ∧ |(colIndex : ℤ) - x| ≤ 1 then
        { color := some color, value := 0 }
      else cell

/-- `clearedGridAndPoints(grid)`: drop the filled rows, prepend that many
fresh 10-cell `{value: 0}` rows, report the number dropped as points. -/
def clearedGridAndPoints (grid : Grid) : Grid × ℕ :=
  let clearedGrid := grid.filter fun row => !isRowFilled row
  let points := grid.length - clearedGrid.length
  (List.replicate points (List.replicate 10 emptyCell) ++ clearedGrid, points)

/-- `updateLevelAndTickRate(score, newPoints)`:
`level = min(floor((score + newPoints) / 5) + 1, 15)`,
`tickRate = TICK_RATE_MS - 30 * level`. -/
def updateLevelAndTickRate (score newPoints : ℕ) : ℕ × ℤ :=
  let level := min ((score + newPoints) / 5 + 1) 15
  (level, Constants.TICK_RATE_MS - 30 * level)

/-- `computeGridAndUpdateState(getY)(s)`: shared settle logic of drop and
tick — stamp (or detonate) at `(x / 20, getY s)`, clear rows, add points,
advance level/tick-rate, promote the next piece and generate a new one. -/
def computeGridAndUpdateState (getY : State → ℤ) (s : State) : State :=
  let x := s.currentTetromino.x / Block.WIDTH
  let y := getY s
  let grid :=
    if s.currentTetromino.type ≠ .bomb then
      addTetrominoToGrid s.grid x y s.currentTetromino.shape s.currentTetromino.color
    else
      addBombToGrid s.grid x y s.currentTetromino.color
  let cleared := clearedGridAndPoints grid
  let levelAndRate := updateLevelAndTickRate s.score cleared.2
  { s with
    currentTetromino := s.nextTetromino
    nextTetromino := getRandomTetrimono (s.nextTetromino.id + 1)
    grid := cleared.1
    score := s.score + cleared.2
    level := levelAndRate.1
    tickRate := levelAndRate.2 }

/-- `handleAddTetromino`: settle at the current row (`y / Block.HEIGHT`). -/
def handleAddTetromino : State → State :=
  computeGridAndUpdateState fun s => s.currentTetromino.y / Block.HEIGHT

/-- `dropTetromino`: settle at the row computed by `findDropPosition`. -/
def dropTetromino : State → State :=
  computeGridAndUpdateState fun s =>
    findDropPosition s.grid s.currentTetromino.x s.currentTetromino.y
      s.currentTetromino.shape

/-- `tick(s)`: game over if the current position is invalid; settle if one
block lower is invalid; otherwise fall one block height. -/
def tick (s : State) : State :=
  if !isValidPosition s.currentTetromino.x s.currentTetromino.y
      s.currentTetromino.shape s.grid then
    handleGameEnd s
  else if !isValidPosition s.currentTetromino.x (s.currentTetromino.y + Block.HEIGHT)
      s.currentTetromino.shape s.grid then
    handleAddTetromino s
  else
    { s with
      currentTetromino :=
        { s.currentTetromino with y := s.currentTetromino.y + Block.HEIGHT } }

/-- The `updatedProperties` triple produced by an action function. -/
structure UpdatedProps where
  x : ℤ
  y : ℤ
  shape : TetrominoShape
deriving DecidableEq, Repr

/-- `createTetriminoAction(actionFn)`: apply the action if the produced
position is valid; otherwise fall through to `tick` exactly when the
optional `stateChange` is absent (`stateChange?.x` undefined — the Rotate
path) or carries `x == 0`; otherwise a no-op. -/
def createTetriminoAction (actionFn : State → Option (ℤ × ℤ) → UpdatedProps)
    (s : State) (stateChange : Option (ℤ × ℤ)) : State :=
  let updatedProperties := actionFn s stateChange
  if isValidPosition updatedProperties.x updatedProperties.y
      updatedProperties.shape s.grid then
    { s with
      currentTetromino :=
        { s.currentTetromino with
          x := updatedProperties.x
          y := updatedProperties.y
          shape := updatedProperties.shape } }
  else
    match stateChange with
    | none => tick s
    | some (dx, _) => if dx = 0 then tick s else s

/-- `moveAction(s, stateChange)`: translate by `(stateChange?.x || 0,
stateChange?.y || 0)`, shape kept. -/
def moveAction (s : State) (stateChange : Option (ℤ × ℤ)) : UpdatedProps :=
  { x := s.currentTetromino.x + (stateChange.map Prod.fst).getD 0
    y := s.currentTetromino.y + (stateChange.map Prod.snd).getD 0
    shape := s.currentTetromino.shape }

/-- `rotateAction(s)`: same position, clockwise-rotated shape. -/
def rotateAction (s : State) (_ : Option (ℤ × ℤ)) : UpdatedProps :=
  { x := s.currentTetromino.x
    y := s.currentTetromino.y
    shape := rotateShapeClockwise s.currentTetromino.shape }

/-- `moveTetrimino = createTetriminoAction(moveAction)`, always invoked
with a `Move` payload. -/
def moveTetrimino (s : State) (dx dy : ℤ) : State :=
  createTetriminoAction moveAction s (some (dx, dy))

/-- `rotateTetrimino = createTetriminoAction(rotateAction)`, invoked with
no `stateChange` argument. -/
def rotateTetrimino (s : State) : State :=
  createTetriminoAction rotateAction s none

/-! ## The reducer (`src/main.ts`) -/

/-- `reduceState(s, stateChange)` — the `switch (true)` dispatcher: Drop,
Rotate and Move act only while playing; Space resets only after game end;
any remaining event is swallowed after game end and ticks otherwise
(so a numeric tick — and also Space during play — runs `tick`). -/
def reduceState (s : State) (stateChange : StateChange) : State :=
  match stateChange with
  | .drop => if s.gameEnd then s else dropTetromino s
  | .rotate => if s.gameEnd then s else rotateTetrimino s
  | .move dx dy => if s.gameEnd then s else moveTetrimino s dx dy
  | .space =>
    if s.gameEnd then
      { s with
        gameEnd := false
        score := 0
        grid := freshGrid
        currentTetromino := getRandomTetrimono 1
        nextTetromino := getRandomTetrimono 2
        level := 0 }
    else tick s
  | .tick => if s.gameEnd then s else tick s

/-- Folding an event sequence from `initialState`: the reachable states
of the game are exactly `applyEvents evts` for some event list. -/
def applyEvents (evts : List StateChange) : State :=
  evts.foldl reduceState initialState

/-! ## Concrete instances used by the theorems -/

/-- A playing state used to probe invalid rotations: `initialState` with
the line piece at pixel position `(0, 360)`; its clockwise rotation (a 4×1
column) would extend to pixel 440, off the bottom of the 400-pixel canvas,
while the unrotated line can still fall one block. -/
def lineNearFloorState : State :=
  { initialState with
    currentTetromino := { tetrominoShapes "line" with id := 1, x := 0, y := 360 } }

/-- A playing state whose spawn position is already blocked: the fully
occupied grid makes the current piece's own position invalid. -/
def blockedSpawnState : State :=
  { initialState with
    grid := List.replicate 20 (List.replicate 10 { color := some .red, value := 1 }) }

/-- An event sequence that drives the game from `initialState` to game
over and restarts it: ten hard drops stack pieces up to the spawn rows,
the tick then finds the spawn position invalid and ends the game, and
Space restarts. -/
def gameOverTrace : List StateChange :=
  [.drop, .drop, .drop, .drop, .drop, .drop, .drop, .drop, .drop, .drop, .tick, .space]

/-! ## Theorems -/

/-- C1 counterexample: in a Playing state whose current piece's clockwise
rotation is invalid, the Rotate event is *not* a no-op — here it changes
the state (the piece moves down one block, because the invalid rotation
falls through to `tick`). -/
theorem rotate_invalid_changes_state :
    lineNearFloorState.gameEnd = false ∧
    isValidPosition lineNearFloorState.currentTetromino.x
      lineNearFloorState.currentTetromino.y
      (rotateShapeClockwise lineNearFloorState.currentTetromino.shape)
      lineNearFloorState.grid = false ∧
    reduceState lineNearFloorState .rotate ≠ lineNearFloorState := by
  refine ⟨rfl, by decide, ?_⟩
  intro h
  have hy : (reduceState lineNearFloorState .rotate).currentTetromino.y =
      lineNearFloorState.currentTetromino.y := by rw [h]
  revert hy
  decide

/-- C1 (amended): in the Playing state, a Rotate event whose clockwise-
rotated shape is invalid at the current position does not apply the
rotation but falls through to `tick` — the source passes no `stateChange`
to `createTetriminoAction`, whose undefined-`x` branch runs `tick`; the
event therefore advances the tick (fall, settle or game end) rather than
being a no-op. -/
theorem rotate_invalid_falls_through_to_tick (s : State) (hplay : s.gameEnd = false)
    (hinv : isValidPosition s.currentTetromino.x s.currentTetromino.y
      (rotateShapeClockwise s.currentTetromino.shape) s.grid = false) :
    reduceState s .rotate = tick s := by
  simp [reduceState, hplay, rotateTetrimino, createTetriminoAction, rotateAction, hinv]

/-- Witness for the amended C1 at the concrete near-floor line state. -/
theorem rotate_invalid_falls_through_to_tick_at_instance :
    lineNearFloorState.gameEnd = false ∧
    isValidPosition lineNearFloorState.currentTetromino.x
      lineNearFloorState.currentTetromino.y
      (rotateShapeClockwise lineNearFloorState.currentTetromino.shape)
      lineNearFloorState.grid = false ∧
    reduceState lineNearFloorState .rotate = tick lineNearFloorState :=
  ⟨rfl, by decide, rotate_invalid_falls_through_to_tick lineNearFloorState rfl (by decide)⟩

/-- C2 counterexample: the restarted state reached by `gameOverTrace` is a
reachable state whose `level` is `0`, outside the claimed range `[1, 15]`
(the Space case of `reduceState` writes `level := 0`). -/
theorem reachable_level_zero :
    (applyEvents gameOverTrace).level = 0 ∧ ¬ 1 ≤ (applyEvents gameOverTrace).level := by
  have h : (applyEvents gameOverTrace).level = 0 := by decide
  exact ⟨h, by omega⟩

/-- The settle path always writes a level of at most 15. -/
theorem level_le_computeGridAndUpdateState (f : State → ℤ) (s : State) :
    (computeGridAndUpdateState f s).level ≤ 15 :=
  min_le_right _ _

/-- `tick` keeps the level at most 15. -/
theorem level_le_tick (s : State) (h : s.level ≤ 15) : (tick s).level ≤ 15 := by
  unfold tick
  split
  · exact h
  split
  · exact level_le_computeGridAndUpdateState _ _
  · exact h

/-- `createTetriminoAction` keeps the level at most 15. -/
theorem level_le_createTetriminoAction (actionFn : State → Option (ℤ × ℤ) → UpdatedProps)
    (s : State) (sc : Option (ℤ × ℤ)) (h : s.level ≤ 15) :
    (createTetriminoAction actionFn s sc).level ≤ 15 := by
  rcases sc with _ | ⟨dx, dy⟩
  · simp only [createTetriminoAction]
    split
    · exact h
    · exact level_le_tick s h
  · simp only [createTetriminoAction]
    split
    · exact h
    split
    · exact level_le_tick s h
    · exact h

/-- One reducer step keeps the level at most 15. -/
theorem level_le_reduceState (s : State) (e : StateChange) (h : s.level ≤ 15) :
    (reduceState s e).level ≤ 15 := by
  cases e with
  | drop =>
    simp only [reduceState]
    split
    · exact h
    · exact level_le_computeGridAndUpdateState _ _
  | rotate =>
    simp only [reduceState]
    split
    · exact h
    · exact level_le_createTetriminoAction _ _ _ h
  | move dx dy =>
    simp only [reduceState]
    split
    · exact h
    · exact level_le_createTetriminoAction _ _ _ h
  | space =>
    simp only [reduceState]
    split
    · exact Nat.zero_le 15
    · exact level_le_tick s h
  | tick =>
    simp only [reduceState]
    split
    · exact h
    · exact level_le_tick s h

/-- C2 (amended): every state reachable from `initialState` by a sequence
of input events has `level` in `[0, 15]`; the lower end is genuinely 0,
not 1, because the Space restart writes `level := 0` (a settle then puts
it back in `[1, 15]`). -/
theorem reachable_level_in_range (evts : List StateChange) :
    0 ≤ (applyEvents evts).level ∧ (applyEvents evts).level ≤ 15 := by
  refine ⟨Nat.zero_le _, ?_⟩
  have main : ∀ (l : List StateChange) (s : State), s.level ≤ 15 →
      (l.foldl reduceState s).level ≤ 15 := by
    intro l
    induction l with
    | nil => intro s h; exact h
    | cons e es ih => intro s h; exact ih _ (level_le_reduceState s e h)
  exact main evts initialState (by decide)

/-- C3 counterexample: the claim says `isValidPosition` is false whenever
the shape's first row is empty, but on the shape `[[]]` — whose first row
exists and is empty — the source's null/undefined check passes (`shape[0]`
is `[]`, not undefined) and the result is `true`. -/
theorem isValidPosition_empty_first_row_true :
    ([[]] : TetrominoShape).headD [] = [] ∧
    isValidPosition 0 0 [[]] initialState.grid = true := by
  decide

/-- C3 (amended): `isValidPosition` is false exactly when the shape is the
empty list (a present-but-empty first row is not rejected); otherwise it is
true iff the pixel bounding box is on-screen and the grid-aligned footprint
does not coincide with an occupied cell. -/
theorem isValidPosition_eq_onScreen_and_no_overlap (x y : ℤ) (shape : TetrominoShape)
    (grid : Grid) :
    isValidPosition x y shape grid =
      (!shape.isEmpty &&
        (!isOffScreen x y ((shape.headD []).length * Block.WIDTH)
            (shape.length * Block.HEIGHT) &&
          !shapeAndGridCoincide shape grid (toGridCoordinates x Block.WIDTH)
            (toGridCoordinates y Block.HEIGHT))) := by
  cases shape with
  | nil => rfl
  | cons r0 rest => rfl

/-- C4: in the Playing state, a Tick on a current position that is itself
invalid ends the game: the piece is stamped at its present grid location,
both pieces become the terminal null piece carrying the old current id,
`gameEnd` is set, and `highScore = max(previous highScore, score)`. -/
theorem tick_on_invalid_position_ends_game (s : State) (hplay : s.gameEnd = false)
    (hinv : isValidPosition s.currentTetromino.x s.currentTetromino.y
      s.currentTetromino.shape s.grid = false) :
    reduceState s .tick =
      { s with
        grid := addTetrominoToGrid s.grid (s.currentTetromino.x / Block.WIDTH)
          (s.currentTetromino.y / Block.HEIGHT) s.currentTetromino.shape
          s.currentTetromino.color
        currentTetromino := { id := s.currentTetromino.id, shape := [], color := .black,
                              x := Block.WIDTH * 5, y := 0, type := .cube }
        nextTetromino := { id := s.currentTetromino.id, shape := [], color := .black,
                           x := Block.WIDTH * 5, y := 0, type := .cube }
        gameEnd := true
        highScore := max s.highScore s.score } := by
  have hmax : (if s.score > s.highScore then s.score else s.highScore) =
      max s.highScore s.score := by
    split <;> omega
  have hnull : tetrominoShapes "null" =
      { id := 0, y := 0, type := .cube, shape := [], color := .black,
        x := Block.WIDTH * 5 } := rfl
  simp only [reduceState, hplay, Bool.false_eq_true, if_false, tick, hinv, Bool.not_false,
    if_true, handleGameEnd, hnull, hmax]

/-- Witness for C4 at the blocked-spawn state. -/
theorem tick_on_invalid_position_ends_game_at_instance :
    blockedSpawnState.gameEnd = false ∧
    isValidPosition blockedSpawnState.currentTetromino.x
      blockedSpawnState.currentTetromino.y blockedSpawnState.currentTetromino.shape
      blockedSpawnState.grid = false ∧
    reduceState blockedSpawnState .tick =
      { blockedSpawnState with
        grid := addTetrominoToGrid blockedSpawnState.grid
          (blockedSpawnState.currentTetromino.x / Block.WIDTH)
          (blockedSpawnState.currentTetromino.y / Block.HEIGHT)
          blockedSpawnState.currentTetromino.shape
          blockedSpawnState.currentTetromino.color
        currentTetromino := { id := blockedSpawnState.currentTetromino.id, shape := [],
                              color := .black, x := Block.WIDTH * 5, y := 0, type := .cube }
        nextTetromino := { id := blockedSpawnState.currentTetromino.id, shape := [],
                           color := .black, x := Block.WIDTH * 5, y := 0, type := .cube }
        gameEnd := true
        highScore := max blockedSpawnState.highScore blockedSpawnState.score } :=
  ⟨rfl, by decide, tick_on_invalid_position_ends_game blockedSpawnState rfl (by decide)⟩

/-- C5: `clearedGridAndPoints` preserves the row count, reports as points
the number of `isRowFilled` rows, keeps the non-filled rows in order at
the bottom, and prepends that many all-empty (`value = 0`) rows. -/
theorem clearedGridAndPoints_spec (grid : Grid) :
    (clearedGridAndPoints grid).1.length = grid.length ∧
    (clearedGridAndPoints grid).2 = grid.countP (fun row => isRowFilled row) ∧
    (clearedGridAndPoints grid).1 =
      List.replicate (clearedGridAndPoints grid).2 (List.replicate 10 emptyCell) ++
        grid.filter (fun row => !isRowFilled row) ∧
    ∀ cell ∈ (List.replicate 10 emptyCell : List GridObject), cell.value = 0 := by
  have hsplit : grid.length =
      (grid.filter fun row => isRowFilled row).length +
        (grid.filter fun row => !isRowFilled row).length := by
    simpa [List.countP_eq_length_filter] using
      List.length_eq_countP_add_countP (l := grid) fun row => isRowFilled row
  have hcount : grid.countP (fun row => isRowFilled row) =
      (grid.filter fun row => isRowFilled row).length :=
    List.countP_eq_length_filter _ _
  refine ⟨?_, ?_, rfl, ?_⟩
  · simp only [clearedGridAndPoints, List.length_append, List.length_replicate]
    omega
  · simp only [clearedGridAndPoints]
    omega
  · intro cell hc
    rw [(List.eq_of_mem_replicate hc : cell = emptyCell)]
    rfl

/-- Witness for C5 on a concrete two-row grid with one filled row. -/
theorem clearedGridAndPoints_spec_at_instance :
    (clearedGridAndPoints [[⟨some .red, 1⟩], [⟨none, 0⟩]]).1.length =
      ([[⟨some .red, 1⟩], [⟨none, 0⟩]] : Grid).length ∧
    (clearedGridAndPoints [[⟨some .red, 1⟩], [⟨none, 0⟩]]).2 =
      ([[⟨some .red, 1⟩], [⟨none, 0⟩]] : Grid).countP (fun row => isRowFilled row) :=
  ⟨(clearedGridAndPoints_spec [[⟨some .red, 1⟩], [⟨none, 0⟩]]).1,
    (clearedGridAndPoints_spec [[⟨some .red, 1⟩], [⟨none, 0⟩]]).2.1⟩

/-- C6: on the empty 20×10 initial grid, `findDropPosition` lands the 2×2
cube dropped from `(0, 0)` on grid row 18 and the 1×4 line on grid row 19. -/
theorem findDropPosition_cube_line_on_initial_grid :
    findDropPosition initialState.grid 0 0 [[1, 1], [1, 1]] = 18 ∧
    findDropPosition initialState.grid 0 0 [[1, 1, 1, 1]] = 19 := by
  decide

/-- C8: `getRandomTetrimono` is a pure function of `id` alone: the piece
equals the fixed table entry selected by reducing the LCG hash
`(1103515245 * (12345 + id) + 12345) % 2^31` modulo 8 over the 8 piece
kinds, retagged with `id`; it always carries the given `id` and `y = 0`,
so two calls with the same `id` yield identical pieces. -/
theorem getRandomTetrimono_characterization (id : ℕ) :
    RNG.modulus (RNG.hash (12345 + id)) < 8 ∧
    RNG.hash (12345 + id) = (1103515245 * (12345 + id) + 12345) % 2147483648 ∧
    getRandomTetrimono id =
      { tetrominoShapes (tetrominoMapping (RNG.modulus (RNG.hash (12345 + id)))) with
        id := id } ∧
    (getRandomTetrimono id).id = id ∧
    (getRandomTetrimono id).y = 0 := by
  have h8m : RNG.hash (12345 + id) % 8 < 8 := Nat.mod_lt _ (by norm_num)
  have h8 : RNG.modulus (RNG.hash (12345 + id)) < 8 := h8m
  have hrec : getRandomTetrimono id =
      { tetrominoShapes (tetrominoMapping (RNG.modulus (RNG.hash (12345 + id)))) with
        id := id } := rfl
  have hid : (getRandomTetrimono id).id = id := rfl
  have hupd : ∀ (T : TetrominoObject) (n : ℕ), ({ T with id := n } : TetrominoObject).y = T.y :=
    fun _ _ => rfl
  have hy : ∀ k, k < 8 → (tetrominoShapes (tetrominoMapping k)).y = 0 := by
    intro k hk
    interval_cases k <;> rfl
  exact ⟨h8, rfl, hrec, hid,
    (congrArg TetrominoObject.y hrec).trans
      ((hupd (tetrominoShapes (tetrominoMapping (RNG.modulus (RNG.hash (12345 + id))))) id).trans
        (hy _ h8))⟩

/-- Entries of `List.mapIdx` at an in-range index. -/
theorem getElem_mapIdx_aux {α β : Type} (l : List α) (f : ℕ → α → β) (i : ℕ)
    (h : i < l.length) (h' : i < (l.mapIdx f).length) : (l.mapIdx f)[i] = f i l[i] := by
  have := List.get_mapIdx l f i h
  simpa using this

/-- C9: `addBombToGrid` keeps the grid's dimensions; every cell within
Chebyshev distance 1 of `(x, y)` becomes `{color, value: 0}` and every
other cell is unchanged. -/
theorem addBombToGrid_spec (grid : Grid) (x y : ℤ) (color : Color) :
    (addBombToGrid grid x y color).length = grid.length ∧
    ∀ i j, i < grid.length → j < (grid.getD i []).length →
      ((addBombToGrid grid x y color).getD i []).getD j emptyCell =
        (if |(i : ℤ) - y| ≤ 1 ∧ |(j : ℤ) - x| ≤ 1 then
          { color := some color, value := 0 }
        else (grid.getD i []).getD j emptyCell) := by
  have hlen : (addBombToGrid grid x y color).length = grid.length := by
    simp [addBombToGrid]
  refine ⟨hlen, ?_⟩
  intro i j hi hj
  have hi2 : i < (addBombToGrid grid x y color).length := by omega
  have hrow : (addBombToGrid grid x y color).getD i [] =
      (grid[i]).mapIdx fun colIndex cell =>
        if |(i : ℤ) - y| ≤ 1 ∧ |(colIndex : ℤ) - x| ≤ 1 then
          { color := some color, value := 0 }
        else cell := by
    rw [List.getD_eq_getElem _ _ hi2]
    exact getElem_mapIdx_aux grid _ i hi hi2
  rw [List.getD_eq_getElem _ _ hi] at hj ⊢
  have hj2 : j < ((grid[i]).mapIdx fun colIndex cell =>
      if |(i : ℤ) - y| ≤ 1 ∧ |(colIndex : ℤ) - x| ≤ 1 then
        { color := some color, value := 0 }
      else cell).length := by
    simpa using hj
  rw [hrow, List.getD_eq_getElem _ _ hj2, getElem_mapIdx_aux _ _ j hj hj2,
    List.getD_eq_getElem _ _ hj]

/-- Witness for C9 on a concrete 3×2 grid and concrete indices, one inside
the blast radius and one outside. -/
theorem addBombToGrid_spec_at_instance :
    (0 : ℕ) < ([[⟨some .red, 1⟩, ⟨some .red, 1⟩, ⟨some .red, 1⟩],
      [⟨some .red, 1⟩, ⟨some .red, 1⟩, ⟨some .red, 1⟩]] : Grid).length ∧
    ((addBombToGrid [[⟨some .red, 1⟩, ⟨some .red, 1⟩, ⟨some .red, 1⟩],
        [⟨some .red, 1⟩, ⟨some .red, 1⟩, ⟨some .red, 1⟩]] 0 0 .black).getD 0 []).getD 0
        emptyCell = ⟨some .black, 0⟩ ∧
    ((addBombToGrid [[⟨some .red, 1⟩, ⟨some .red, 1⟩, ⟨some .red, 1⟩],
        [⟨some .red, 1⟩, ⟨some .red, 1⟩, ⟨some .red, 1⟩]] 0 0 .black).getD 0 []).getD 2
        emptyCell = ⟨some .red, 1⟩ := by
  refine ⟨by decide, ?_, ?_⟩
  · have h := (addBombToGrid_spec [[⟨some .red, 1⟩, ⟨some .red, 1⟩, ⟨some .red, 1⟩],
      [⟨some .red, 1⟩, ⟨some .red, 1⟩, ⟨some .red, 1⟩]] 0 0 .black).2 0 0
      (by decide) (by decide)
    rw [h]
    decide
  · have h := (addBombToGrid_spec [[⟨some .red, 1⟩, ⟨some .red, 1⟩, ⟨some .red, 1⟩],
      [⟨some .red, 1⟩, ⟨some .red, 1⟩, ⟨some .red, 1⟩]] 0 0 .black).2 0 2
      (by decide) (by decide)
    rw [h]
    decide

/-- C10: a Space event in the Ended state resets `gameEnd`, `score`,
`grid`, `level` and both pieces, while `highScore` and `tickRate` keep
their pre-restart values. -/
theorem reduceState_space_after_end (s : State) (h : s.gameEnd = true) :
    reduceState s .space =
      { gameEnd := false
        currentTetromino := getRandomTetrimono 1
        nextTetromino := getRandomTetrimono 2
        grid := freshGrid
        score := 0
        level := 0
        highScore := s.highScore
        tickRate := s.tickRate } := by
  simp [reduceState, h]

/-- Witness for C10 at a concrete ended state. -/
theorem reduceState_space_after_end_at_instance :
    ({ initialState with gameEnd := true, highScore := 7, tickRate := 470 } : State).gameEnd
        = true ∧
    reduceState { initialState with gameEnd := true, highScore := 7, tickRate := 470 } .space =
      { gameEnd := false
        currentTetromino := getRandomTetrimono 1
        nextTetromino := getRandomTetrimono 2
        grid := freshGrid
        score := 0
        level := 0
        highScore := 7
        tickRate := 470 } :=
  ⟨rfl, reduceState_space_after_end _ rfl⟩

/-- The rotated shape has one row per column of the input's first row. -/
theorem rot_length (m : TetrominoShape) :
    (rotateShapeClockwise m).length = (m.headD []).length := by
  simp [rotateShapeClockwise]

/-- Every row of the rotated shape has one cell per row of the input. -/
theorem rot_row_length (m : TetrominoShape) :
    ∀ row ∈ rotateShapeClockwise m, row.length = m.length := by
  intro row hrow
  simp only [rotateShapeClockwise, List.mem_map, List.mem_range] at hrow
  obtain ⟨col, hcol, rfl⟩ := hrow
  simp

/-- In a non-empty rectangular shape the first row has the common width. -/
theorem headD_length_of_rect (m : TetrominoShape) (n : ℕ) (hne : m ≠ [])
    (hrows : ∀ row ∈ m, row.length = n) : (m.headD []).length = n := by
  cases m with
  | nil => exact absurd rfl hne
  | cons a l => exact hrows a (List.mem_cons_self a l)

/-- Entry formula for `rotateShapeClockwise`: for a shape with `R` rows
whose first row has `C` cells, entry `(i, j)` of the rotation is entry
`(R - 1 - j, i)` of the input. -/
theorem rot_entry (m : TetrominoShape) (R C : ℕ) (hlen : m.length = R)
    (hhead : (m.headD []).length = C) (i j : ℕ) (hi : i < C) (hj : j < R) :
    ((rotateShapeClockwise m).getD i []).getD j 0 =
      (m.getD (R - 1 - j) []).getD i 0 := by
  subst hlen
  have hiM : i < ((List.range (m.headD []).length).map fun col =>
      m.reverse.map fun row => row.getD col 0).length := by
    rw [List.length_map, List.length_range, hhead]
    exact hi
  have h1 : (rotateShapeClockwise m).getD i [] =
      m.reverse.map fun row => row.getD i 0 := by
    rw [rotateShapeClockwise, List.getD_eq_getElem _ _ hiM, List.getElem_map,
      List.getElem_range]
  have hjrev : j < (m.reverse.map fun row => row.getD i 0).length := by
    simpa using hj
  have hlt : m.length - 1 - j < m.length := by omega
  rw [h1, List.getD_eq_getElem _ _ hjrev, List.getElem_map, List.getElem_reverse,
    List.getD_eq_getElem _ _ hlt]

/-- Two rectangular shapes with the same dimensions and the same entries
are equal. -/
theorem ext_entries (m m' : TetrominoShape) (R C : ℕ) (hm : m.length = R)
    (hm' : m'.length = R) (hrows : ∀ row ∈ m, row.length = C)
    (hrows' : ∀ row ∈ m', row.length = C)
    (h : ∀ i j, i < R → j < C → (m.getD i []).getD j 0 = (m'.getD i []).getD j 0) :
    m = m' := by
  apply List.ext_getElem (hm.trans hm'.symm)
  intro i hi1 hi2
  have hrowlen : m[i].length = C := hrows _ (List.getElem_mem hi1)
  have hrowlen' : m'[i].length = C := hrows' _ (List.getElem_mem hi2)
  apply List.ext_getElem (hrowlen.trans hrowlen'.symm)
  intro j hj1 hj2
  have hj : j < C := hrowlen ▸ hj1
  have hij := h i j (hm ▸ hi1) hj
  rwa [List.getD_eq_getElem _ _ hi1, List.getD_eq_getElem _ _ hi2,
    List.getD_eq_getElem _ _ hj1, List.getD_eq_getElem _ _ hj2] at hij

/-- C7: rotating a non-empty rectangular shape (every row of the same
non-zero length `C`) four times with `rotateShapeClockwise` yields a shape
equal in content — indeed equal as a list of rows — to the original. -/
theorem rotate_four_times_eq_self (shape : TetrominoShape) (C : ℕ) (hne : shape ≠ [])
    (hC : 0 < C) (hrect : ∀ row ∈ shape, row.length = C) :
    rotateShapeClockwise (rotateShapeClockwise (rotateShapeClockwise
      (rotateShapeClockwise shape))) = shape := by
  have hR : 0 < shape.length := List.length_pos.mpr hne
  have hhead : (shape.headD []).length = C := headD_length_of_rect shape C hne hrect
  set m1 := rotateShapeClockwise shape with hm1
  set m2 := rotateShapeClockwise m1 with hm2
  set m3 := rotateShapeClockwise m2 with hm3
  have h1len : m1.length = C := (rot_length shape).trans hhead
  have h1rows : ∀ row ∈ m1, row.length = shape.length := rot_row_length shape
  have h1ne : m1 ≠ [] := List.ne_nil_of_length_pos (h1len ▸ hC)
  have h1head : (m1.headD []).length = shape.length :=
    headD_length_of_rect m1 _ h1ne h1rows
  have h2len : m2.length = shape.length := (rot_length m1).trans h1head
  have h2rows : ∀ row ∈ m2, row.length = C := by
    intro row hr
    rw [rot_row_length m1 row hr, h1len]
  have h2ne : m2 ≠ [] := List.ne_nil_of_length_pos (h2len ▸ hR)
  have h2head : (m2.headD []).length = C := headD_length_of_rect m2 C h2ne h2rows
  have h3len : m3.length = C := (rot_length m2).trans h2head
  have h3rows : ∀ row ∈ m3, row.length = shape.length := by
    intro row hr
    rw [rot_row_length m2 row hr, h2len]
  have h3ne : m3 ≠ [] := List.ne_nil_of_length_pos (h3len ▸ hC)
  have h3head : (m3.headD []).length = shape.length :=
    headD_length_of_rect m3 _ h3ne h3rows
  have h4len : (rotateShapeClockwise m3).length = shape.length :=
    (rot_length m3).trans h3head
  have h4rows : ∀ row ∈ rotateShapeClockwise m3, row.length = C := by
    intro row hr
    rw [rot_row_length m3 row hr, h3len]
  apply ext_entries (rotateShapeClockwise m3) shape shape.length C h4len rfl h4rows hrect
  intro i j hi hj
  have e4 := rot_entry m3 C shape.length h3len h3head i j hi hj
  have e3 := rot_entry m2 shape.length C h2len h2head (C - 1 - j) i (by omega) hi
  have e2 := rot_entry m1 C shape.length h1len h1head (shape.length - 1 - i) (C - 1 - j)
    (by omega) (by omega)
  have e1 := rot_entry shape shape.length C rfl hhead j (shape.length - 1 - i)
    (by omega) (by omega)
  have hCj : C - 1 - (C - 1 - j) = j := by omega
  have hRi : shape.length - 1 - (shape.length - 1 - i) = i := by omega
  rw [e4, e3, e2, hCj, e1, hRi]

/-- Witness for C7 on the concrete 2×3 rectangular shape
`[[1,2,3],[4,5,6]]`. -/
theorem rotate_four_times_eq_self_at_instance :
    ([[1, 2, 3], [4, 5, 6]] : TetrominoShape) ≠ [] ∧ (0 : ℕ) < 3 ∧
    (∀ row ∈ ([[1, 2, 3], [4, 5, 6]] : TetrominoShape), row.length = 3) ∧
    rotateShapeClockwise (rotateShapeClockwise (rotateShapeClockwise
      (rotateShapeClockwise [[1, 2, 3], [4, 5, 6]]))) = [[1, 2, 3], [4, 5, 6]] :=
  ⟨by decide, by decide, by decide,
    rotate_four_times_eq_self [[1, 2, 3], [4, 5, 6]] 3 (by decide) (by decide) (by decide)⟩

end Tetris
